import Mathlib

/-!
# Verification of the clapctl deployment orchestration subsystem

Shallow embedding of the deployment-orchestration core of the clapctl
repository: the completion-polling watcher state machine
(`AWSCloudProvider.watchService` in the cloud provider module and the legacy
`AWSService.watchService`), the status classification predicates of
`CloudFormationService`, the version/artifact resolution logic of
`deployService` / `updateService` backed by `S3Service`, the stack
create/update parameter construction, the memoized stack-output getters, and
the provider registry.

Remote interactions are modelled by explicit environments: a watch run reads
its stack-status queries from a function `Nat → Except String String` giving
the outcome of the i-th `getStackStatus` call (an error models a thrown
exception, carrying its message); the artifact store is a function from
bucket and object key to the outcome of the underlying object fetch.
-/

namespace Clapctl

/-- The three watched lifecycle actions (enum `DeployAction` in
`services/cloud/types`, string values deploy / update / delete; the legacy
`Action` enum in `services/aws` has the same three values). -/
inductive DeployAction
  | deploy
  | update
  | delete
deriving DecidableEq

/-- The `terminalStates` set of `CloudFormationService.isStackDeployCompleted`. -/
def completedStateNames : List String :=
  ["CREATE_COMPLETE", "UPDATE_COMPLETE", "DELETE_COMPLETE", "UPDATE_ROLLBACK_COMPLETE"]

/-- The `failedStates` set of `CloudFormationService.isStackDeployFailed`. -/
def failedStateNames : List String :=
  ["CREATE_FAILED", "UPDATE_FAILED", "DELETE_FAILED", "ROLLBACK_FAILED",
   "UPDATE_ROLLBACK_FAILED", "ROLLBACK_COMPLETE", "UPDATE_ROLLBACK_COMPLETE"]

/-- A stack-status environment: outcome of the i-th `getStackStatus` call made
during a watch run.  `.error e` models the call throwing with message `e`. -/
def StatusEnv : Type := Nat → Except String String

/-- `CloudFormationService.isStackDeployCompleted`: fetches the stack status
(the q-th status query of the run) and tests membership in the completed set.
A status-fetch error propagates. -/
def CloudFormationService.isStackDeployCompleted (env : StatusEnv) (q : Nat) :
    Except String Bool :=
  (env q).map (fun status => completedStateNames.contains status)

/-- `CloudFormationService.isStackDeployFailed`: fetches the stack status and
tests membership in the failed set.  A status-fetch error propagates. -/
def CloudFormationService.isStackDeployFailed (env : StatusEnv) (q : Nat) :
    Except String Bool :=
  (env q).map (fun status => failedStateNames.contains status)

/-- The action-specific terminal failure messages thrown by both watchers. -/
def failMessage : DeployAction → String
  | .deploy => "deploy service failed, you should check deploy detail"
  | .update => "update service failed, you should check update detail"
  | .delete => "delete service failed, you should check delete detail"

instance {ε α : Type} [DecidableEq ε] [DecidableEq α] : DecidableEq (Except ε α) :=
  fun x y =>
    match x, y with
    | .ok a, .ok b =>
      if h : a = b then .isTrue (by rw [h]) else .isFalse (by intro hc; injection hc; exact h (by assumption))
    | .error a, .error b =>
      if h : a = b then .isTrue (by rw [h]) else .isFalse (by intro hc; injection hc; exact h (by assumption))
    | .ok _, .error _ => .isFalse (fun hc => Except.noConfusion hc)
    | .error _, .ok _ => .isFalse (fun hc => Except.noConfusion hc)

/-- Result of a terminated watch run: terminal outcome (`.error` models the
watcher throwing, with its message), number of loop iterations entered,
number of stack-status queries consumed, and how many times the spinner was
stopped. -/
structure WatchResult where
  outcome : Except String Unit
  iterations : Nat
  statusQueries : Nat
  spinnerStops : Nat
deriving DecidableEq

/-- Loop body of `AWSCloudProvider.watchService` (cloud provider module),
fuel-indexed.  Each loop iteration first runs `isStackDeployCompleted`
(consuming one status query); a thrown error is caught and, for a delete
watch, turns into a silent successful return, otherwise a fresh
`Failed to check deployment status` error is thrown.  A non-completed status
leads (after the progress-text update and the 500 ms sleep, which do not
affect the tracked result) to the next iteration.  A completed status is
re-checked with `isStackDeployFailed` (consuming a second status query, with
the same catch behaviour); a failed status throws the action-specific
message, otherwise the watcher returns successfully.  `none` means the fuel
ran out with the loop still running (the real loop is unbounded). -/
def providerWatchGo (action : DeployAction) (env : StatusEnv) :
    Nat → Nat → Nat → Option (Except String Unit × Nat × Nat)
  | 0, _, _ => none
  | fuel + 1, q, iters =>
    match CloudFormationService.isStackDeployCompleted env q with
    | .error _ =>
      if action = .delete then
        some (.ok (), iters + 1, q + 1)
      else
        some (.error "Failed to check deployment status", iters + 1, q + 1)
    | .ok false => providerWatchGo action env fuel (q + 1) (iters + 1)
    | .ok true =>
      match CloudFormationService.isStackDeployFailed env (q + 1) with
      | .error _ =>
        if action = .delete then
          some (.ok (), iters + 1, q + 2)
        else
          some (.error "Failed to check deployment status", iters + 1, q + 2)
      | .ok true => some (.error (failMessage action), iters + 1, q + 2)
      | .ok false => some (.ok (), iters + 1, q + 2)

/-- `AWSCloudProvider.watchService`: runs the polling loop from the first
status query; the `finally` block stops the spinner exactly once on whatever
exit the loop body takes (success, terminal failure, or thrown error).  The
loop body itself never stops the spinner, as its result type records. -/
def providerWatchService (action : DeployAction) (env : StatusEnv) (fuel : Nat) :
    Option WatchResult :=
  match providerWatchGo action env fuel 0 0 with
  | none => none
  | some (outcome, iters, q) => some ⟨outcome, iters, q, 1⟩

/-- Loop body of the legacy `AWSService.watchService` (services/aws module),
fuel-indexed.  Identical to `providerWatchGo` except that a caught
status-query error is rethrown verbatim (`throw err`) for non-delete actions
instead of being replaced by a fixed-message error. -/
def legacyWatchGo (action : DeployAction) (env : StatusEnv) :
    Nat → Nat → Nat → Option (Except String Unit × Nat × Nat)
  | 0, _, _ => none
  | fuel + 1, q, iters =>
    match CloudFormationService.isStackDeployCompleted env q with
    | .error e =>
      if action = .delete then
        some (.ok (), iters + 1, q + 1)
      else
        some (.error e, iters + 1, q + 1)
    | .ok false => legacyWatchGo action env fuel (q + 1) (iters + 1)
    | .ok true =>
      match CloudFormationService.isStackDeployFailed env (q + 1) with
      | .error e =>
        if action = .delete then
          some (.ok (), iters + 1, q + 2)
        else
          some (.error e, iters + 1, q + 2)
      | .ok true => some (.error (failMessage action), iters + 1, q + 2)
      | .ok false => some (.ok (), iters + 1, q + 2)

/-- Legacy `AWSService.watchService` wrapper, with the same `finally`
single-stop of the spinner. -/
def legacyWatchService (action : DeployAction) (env : StatusEnv) (fuel : Nat) :
    Option WatchResult :=
  match legacyWatchGo action env fuel 0 0 with
  | none => none
  | some (outcome, iters, q) => some ⟨outcome, iters, q, 1⟩

/-- Environment in which every status query reports `UPDATE_ROLLBACK_COMPLETE`. -/
def rollbackCompleteEnv : StatusEnv := fun _ => .ok "UPDATE_ROLLBACK_COMPLETE"

/-- Scenario C environment: the first two status queries report
`CREATE_IN_PROGRESS`, every later one `CREATE_COMPLETE`. -/
def scenarioCEnv : StatusEnv := fun i =>
  .ok (if i < 2 then "CREATE_IN_PROGRESS" else "CREATE_COMPLETE")

/-- Scenario D environment: the first status query reports
`DELETE_IN_PROGRESS`, every later one throws. -/
def scenarioDEnv : StatusEnv := fun i =>
  if i = 0 then .ok "DELETE_IN_PROGRESS" else .error "stack vanished"

/-- Environment in which every status query throws with message `boom`. -/
def boomEnv : StatusEnv := fun _ => .error "boom"

/-- Whether a watch outcome is a success. -/
def exceptIsOk : Except String Unit → Bool
  | .ok _ => true
  | .error _ => false

/-- Classification view of a loop-body result: success flag, iterations,
status queries (abstracting from the message of a propagated error). -/
def goClass : Except String Unit × Nat × Nat → Bool × Nat × Nat
  | (o, i, q) => (exceptIsOk o, i, q)

/-- Classification view of a watch result. -/
def resultClass (r : WatchResult) : Bool × Nat × Nat × Nat :=
  (exceptIsOk r.outcome, r.iterations, r.statusQueries, r.spinnerStops)

lemma watchGo_class_eq (action : DeployAction) (env : StatusEnv) :
    ∀ (fuel q iters : Nat),
      (providerWatchGo action env fuel q iters).map goClass =
      (legacyWatchGo action env fuel q iters).map goClass := by
  intro fuel
  induction fuel with
  | zero => intro q iters; rfl
  | succ n ih =>
    intro q iters
    simp only [providerWatchGo, legacyWatchGo]
    cases h : CloudFormationService.isStackDeployCompleted env q with
    | error e =>
      by_cases hd : action = .delete <;> simp [hd, goClass, exceptIsOk]
    | ok b =>
      cases b with
      | false => simpa using ih (q + 1) (iters + 1)
      | true =>
        cases h2 : CloudFormationService.isStackDeployFailed env (q + 1) with
        | error e =>
          by_cases hd : action = .delete <;> simp [hd, goClass, exceptIsOk]
        | ok b2 => cases b2 <;> rfl

/-- Claim C1 (counterexample): with every status query reporting
`UPDATE_ROLLBACK_COMPLETE`, the watcher of each of the three actions
terminates with the action-specific failure, not with success — refuting the
claim that completion takes priority and the run classifies as Completed. -/
theorem c1_counterexample :
    providerWatchService .deploy rollbackCompleteEnv 1 =
      some ⟨.error (failMessage .deploy), 1, 2, 1⟩ ∧
    providerWatchService .update rollbackCompleteEnv 1 =
      some ⟨.error (failMessage .update), 1, 2, 1⟩ ∧
    providerWatchService .delete rollbackCompleteEnv 1 =
      some ⟨.error (failMessage .delete), 1, 2, 1⟩ ∧
    (Except.error (failMessage .update) : Except String Unit) ≠ .ok () :=
  ⟨rfl, rfl, rfl, by decide⟩

/-- Claim C1 (amended): `UPDATE_ROLLBACK_COMPLETE` belongs to both
classification sets; the Completed-set check runs first but only decides
terminality, after which the Failed-set check takes priority, so for every
action a watch observing `UPDATE_ROLLBACK_COMPLETE` terminates with the
action-specific failure (not success). -/
theorem c1_rollback_priority :
    ∀ (action : DeployAction) (env : StatusEnv) (q iters fuel : Nat),
      env q = .ok "UPDATE_ROLLBACK_COMPLETE" →
      env (q + 1) = .ok "UPDATE_ROLLBACK_COMPLETE" →
      completedStateNames.contains "UPDATE_ROLLBACK_COMPLETE" = true ∧
      failedStateNames.contains "UPDATE_ROLLBACK_COMPLETE" = true ∧
      providerWatchGo action env (fuel + 1) q iters =
        some (.error (failMessage action), iters + 1, q + 2) := by
  intro action env q iters fuel h1 h2
  refine ⟨by decide, by decide, ?_⟩
  have hc : decide ("UPDATE_ROLLBACK_COMPLETE" ∈ completedStateNames) = true := by decide
  have hf : decide ("UPDATE_ROLLBACK_COMPLETE" ∈ failedStateNames) = true := by decide
  simp [providerWatchGo, CloudFormationService.isStackDeployCompleted,
    CloudFormationService.isStackDeployFailed, h1, h2, Except.map, hc, hf]

theorem c1_witness :
    completedStateNames.contains "UPDATE_ROLLBACK_COMPLETE" = true ∧
    failedStateNames.contains "UPDATE_ROLLBACK_COMPLETE" = true ∧
    providerWatchGo .update rollbackCompleteEnv 1 0 0 =
      some (.error (failMessage .update), 1, 2) :=
  c1_rollback_priority .update rollbackCompleteEnv 0 0 0 rfl rfl

/-- Claim C2: over the snapshot sequence CREATE_IN_PROGRESS,
CREATE_IN_PROGRESS, CREATE_COMPLETE (later queries keep reporting
CREATE_COMPLETE), a deploy watch terminates successfully after exactly three
loop iterations (the third iteration also runs the failed-set re-check, a
fourth status query), releasing the spinner exactly once; and on every
terminating run of any action over any environment the spinner is released
exactly once. -/
theorem c2_three_polls_single_release :
    providerWatchService .deploy scenarioCEnv 10 = some ⟨.ok (), 3, 4, 1⟩ ∧
    ∀ (action : DeployAction) (env : StatusEnv) (fuel : Nat) (r : WatchResult),
      providerWatchService action env fuel = some r → r.spinnerStops = 1 := by
  constructor
  · rfl
  · intro action env fuel r h
    unfold providerWatchService at h
    rcases hg : providerWatchGo action env fuel 0 0 with _ | ⟨o, i, q⟩ <;> rw [hg] at h
    · cases h
    · cases h; rfl

theorem c2_witness :
    providerWatchService .deploy scenarioCEnv 10 = some ⟨.ok (), 3, 4, 1⟩ ∧
    WatchResult.spinnerStops ⟨.ok (), 3, 4, 1⟩ = 1 :=
  ⟨c2_three_polls_single_release.1,
   c2_three_polls_single_release.2 .deploy scenarioCEnv 10 ⟨.ok (), 3, 4, 1⟩
     c2_three_polls_single_release.1⟩

/-- Claim C4 (counterexample): on a deploy watch whose status query throws
with message `boom`, the watcher does abort, but the propagated error is the
fresh fixed-message error `Failed to check deployment status`, not the
original status-query error — refuting "the same status-query error
propagates out of the watcher". -/
theorem c4_counterexample :
    providerWatchService .deploy boomEnv 1 =
      some ⟨.error "Failed to check deployment status", 1, 1, 1⟩ ∧
    "Failed to check deployment status" ≠ "boom" :=
  ⟨rfl, by decide⟩

/-- Claim C4 (amended): if a status query throws during a delete watch the
watcher stops immediately with success and no error reaches the caller; for
any other action the watcher aborts with an error, but it is a fresh error
with the fixed message `Failed to check deployment status`, not the original
status-query error.  First conjunct: Scenario D concretely (delete watch,
second query throws: success after two iterations). -/
theorem c4_delete_tolerance :
    providerWatchService .delete scenarioDEnv 10 = some ⟨.ok (), 2, 2, 1⟩ ∧
    ∀ (action : DeployAction) (env : StatusEnv) (q iters fuel : Nat) (e : String),
      env q = .error e →
      (action = .delete →
        providerWatchGo action env (fuel + 1) q iters = some (.ok (), iters + 1, q + 1)) ∧
      (action ≠ .delete →
        providerWatchGo action env (fuel + 1) q iters =
          some (.error "Failed to check deployment status", iters + 1, q + 1)) := by
  refine ⟨rfl, ?_⟩
  intro action env q iters fuel e h
  constructor <;> intro ha <;>
    simp [providerWatchGo, CloudFormationService.isStackDeployCompleted, h, Except.map, ha]

theorem c4_witness :
    providerWatchGo .delete boomEnv 1 0 0 = some (.ok (), 1, 1) ∧
    providerWatchGo .update boomEnv 1 0 0 =
      some (.error "Failed to check deployment status", 1, 1) :=
  ⟨(c4_delete_tolerance.2 .delete boomEnv 0 0 0 "boom" rfl).1 rfl,
   (c4_delete_tolerance.2 .update boomEnv 0 0 0 "boom" rfl).2 (by decide)⟩

/-- Claim C9 (counterexample): on a deploy watch whose first status query
throws with message `boom`, the legacy watcher propagates the original error
`boom` while the provider watcher propagates
`Failed to check deployment status`; the two terminal results differ. -/
theorem c9_counterexample :
    providerWatchService .deploy boomEnv 1 =
      some ⟨.error "Failed to check deployment status", 1, 1, 1⟩ ∧
    legacyWatchService .deploy boomEnv 1 = some ⟨.error "boom", 1, 1, 1⟩ ∧
    some (⟨.error "Failed to check deployment status", 1, 1, 1⟩ : WatchResult) ≠
      some (⟨.error "boom", 1, 1, 1⟩ : WatchResult) :=
  ⟨rfl, rfl, by decide⟩

/-- Claim C9 (amended): for every action, status environment and fuel, the
legacy and provider watchers agree on the success/failure classification,
the number of loop iterations, the number of status queries, and the single
spinner release; they differ only in the message of the propagated error
when a status query throws during a non-delete watch (the legacy watcher
rethrows the original error, the provider watcher a fixed-message one). -/
theorem c9_watchers_classification_equivalent :
    ∀ (action : DeployAction) (env : StatusEnv) (fuel : Nat),
      (providerWatchService action env fuel).map resultClass =
      (legacyWatchService action env fuel).map resultClass := by
  intro action env fuel
  have h := watchGo_class_eq action env fuel 0 0
  unfold providerWatchService legacyWatchService
  rcases hp : providerWatchGo action env fuel 0 0 with _ | ⟨o, i, q⟩ <;>
    rcases hl : legacyWatchGo action env fuel 0 0 with _ | ⟨o2, i2, q2⟩ <;>
      rw [hp, hl] at h <;> simp_all [goClass, resultClass]

/-- Object-store environment: outcome of fetching an object, by bucket and
key (`.error` models the underlying S3 call throwing; both `readObject` and
the raw GetObject of `hasArtifact` go through it). -/
structure S3Env where
  readObject : String → String → Except String String

/-- One artifact-store query, as observed by the version-resolution logic. -/
inductive StoreCall
  | latestTag (bucket : String)
  | latestHash (bucket : String)
  | hasArtifact (bucket : String) (version : String) (arch : String)
deriving DecidableEq

/-- `S3Service.getLatestTag`: reads the LATEST_TAG object and trims it; on
any store failure it throws a fresh error naming the bucket.  The second
component records the store query made. -/
def S3Service.getLatestTag (env : S3Env) (bucket : String) :
    Except String String × List StoreCall :=
  (match env.readObject bucket "LATEST_TAG" with
    | .ok content => .ok content.trim
    | .error _ => .error ("Failed to get latest tag from bucket " ++ bucket),
   [.latestTag bucket])

/-- `S3Service.getLatestHash`: reads the LATEST_HASH object and trims it; on
any store failure it throws a fresh error naming the bucket. -/
def S3Service.getLatestHash (env : S3Env) (bucket : String) :
    Except String String × List StoreCall :=
  (match env.readObject bucket "LATEST_HASH" with
    | .ok content => .ok content.trim
    | .error _ => .error ("Failed to get latest hash from bucket " ++ bucket),
   [.latestHash bucket])

/-- `S3Service.hasArtifact`: issues a GetObject for
`<version>/<arch>/bootstrap.zip`; any error (absence or store failure alike)
is caught and turned into `false`, so the call never throws. -/
def S3Service.hasArtifact (env : S3Env) (bucket version arch : String) :
    Except String Bool × List StoreCall :=
  (match env.readObject bucket (version ++ "/" ++ arch ++ "/bootstrap.zip") with
    | .ok _ => .ok true
    | .error _ => .ok false,
   [.hasArtifact bucket version arch])

/-- `getArtifactsBucket` of the schemas module. -/
def getArtifactsBucket (region : String) : String := "clapdb-pkgs-" ++ region

/-- Version-resolution prefix of `AWSCloudProvider.deployService` (the legacy
`AWSService.deployService` is identical): an empty token (modelling both an
absent `clapdbVersion` and the empty string, since `!version` treats them
alike) resolves through the latest tag; the token `latest` through the
latest hash; any other token through the existence check, failing with
`Invalid version` when the artifact is reported absent. -/
def deployVersionResolution (env : S3Env) (bucket version arch : String) :
    Except String String × List StoreCall :=
  if version = "" then
    S3Service.getLatestTag env bucket
  else if version = "latest" then
    S3Service.getLatestHash env bucket
  else
    let res := S3Service.hasArtifact env bucket version arch
    (match res.1 with
      | .ok true => .ok version
      | .ok false => .error "Invalid version"
      | .error e => .error e,
     res.2)

/-- Version-resolution prefix of `AWSCloudProvider.updateService` (the legacy
`AWSService.updateService` is identical): same dispatch as the deploy path,
but an absent artifact fails with the distinct update-path message. -/
def updateVersionResolution (env : S3Env) (bucket version arch : String) :
    Except String String × List StoreCall :=
  if version = "" then
    S3Service.getLatestTag env bucket
  else if version = "latest" then
    S3Service.getLatestHash env bucket
  else
    let res := S3Service.hasArtifact env bucket version arch
    (match res.1 with
      | .ok true => .ok version
      | .ok false => .error "Artifact not found, check the version/commit"
      | .error e => .error e,
     res.2)

/-- Store environment in which LATEST_TAG and LATEST_HASH exist but every
versioned artifact fetch fails (artifact absent). -/
def missingArtifactEnv : S3Env :=
  ⟨fun _ key =>
    if key = "LATEST_TAG" then .ok "v3"
    else if key = "LATEST_HASH" then .ok "0abc123"
    else .error "NoSuchKey"⟩

/-- Store environment in which every object access fails with an
access-denied store error. -/
def failingStoreEnv : S3Env := ⟨fun _ _ => .error "AccessDenied"⟩

/-- Claim C3: for every store environment, bucket and architecture, the
deploy and update resolution paths dispatch exactly as the token grammar
dictates — an empty token makes exactly one latest-tag query and nothing
else; `latest` exactly one latest-hash query; any other token exactly one
has-artifact query with that token and architecture, and when that query
reports absence the deploy path fails with `Invalid version` and the update
path with `Artifact not found, check the version/commit`. -/
theorem c3_version_dispatch :
    ∀ (env : S3Env) (bucket version arch : String),
      (version = "" →
        (deployVersionResolution env bucket version arch).2 = [.latestTag bucket] ∧
        (updateVersionResolution env bucket version arch).2 = [.latestTag bucket]) ∧
      (version = "latest" →
        (deployVersionResolution env bucket version arch).2 = [.latestHash bucket] ∧
        (updateVersionResolution env bucket version arch).2 = [.latestHash bucket]) ∧
      (version ≠ "" → version ≠ "latest" →
        (deployVersionResolution env bucket version arch).2 =
          [.hasArtifact bucket version arch] ∧
        (updateVersionResolution env bucket version arch).2 =
          [.hasArtifact bucket version arch] ∧
        ((S3Service.hasArtifact env bucket version arch).1 = .ok false →
          (deployVersionResolution env bucket version arch).1 = .error "Invalid version" ∧
          (updateVersionResolution env bucket version arch).1 =
            .error "Artifact not found, check the version/commit")) := by
  intro env bucket version arch
  refine ⟨?_, ?_, ?_⟩
  · intro h
    simp [deployVersionResolution, updateVersionResolution, h,
      S3Service.getLatestTag]
  · intro h
    have h2 : version ≠ "" := by rw [h]; decide
    simp [deployVersionResolution, updateVersionResolution, h, h2,
      S3Service.getLatestHash]
  · intro h1 h2
    simp only [deployVersionResolution, updateVersionResolution, if_neg h1, if_neg h2]
    refine ⟨rfl, rfl, ?_⟩
    intro hfalse
    constructor <;> simp [hfalse]

theorem c3_witness :
    (deployVersionResolution missingArtifactEnv "clapdb-pkgs-us-east-1" "v9" "x86_64").2 =
      [.hasArtifact "clapdb-pkgs-us-east-1" "v9" "x86_64"] ∧
    (updateVersionResolution missingArtifactEnv "clapdb-pkgs-us-east-1" "v9" "x86_64").2 =
      [.hasArtifact "clapdb-pkgs-us-east-1" "v9" "x86_64"] ∧
    (deployVersionResolution missingArtifactEnv "clapdb-pkgs-us-east-1" "v9" "x86_64").1 =
      .error "Invalid version" ∧
    (updateVersionResolution missingArtifactEnv "clapdb-pkgs-us-east-1" "v9" "x86_64").1 =
      .error "Artifact not found, check the version/commit" := by
  have h :=
    (c3_version_dispatch missingArtifactEnv "clapdb-pkgs-us-east-1" "v9" "x86_64").2.2
      (by decide) (by decide)
  exact ⟨h.1, h.2.1, (h.2.2 rfl).1, (h.2.2 rfl).2⟩

/-- Claim C5 (counterexample): with a store whose every access fails with
`AccessDenied`, the has-artifact check swallows the store failure and
reports `false`, so the deploy path fails with `Invalid version` and the
update path with `Artifact not found, check the version/commit` — the
store-access failure is converted into the ordinary artifact-absent outcome
instead of being surfaced as a store error. -/
theorem c5_counterexample :
    (S3Service.hasArtifact failingStoreEnv "clapdb-pkgs-us-east-1" "v1.2.3" "x86_64").1 =
      .ok false ∧
    (deployVersionResolution failingStoreEnv "clapdb-pkgs-us-east-1" "v1.2.3" "x86_64").1 =
      .error "Invalid version" ∧
    (updateVersionResolution failingStoreEnv "clapdb-pkgs-us-east-1" "v1.2.3" "x86_64").1 =
      .error "Artifact not found, check the version/commit" ∧
    "Invalid version" ≠ "AccessDenied" :=
  ⟨rfl, rfl, rfl, by decide⟩

/-- Claim C5 (amended): store-access failures during the latest-tag and
latest-hash reads propagate immediately (wrapped in a fixed bucket-naming
message) with no retry; but a store-access failure during the has-artifact
existence check is caught and converted into the artifact-absent result, so
it surfaces as `Invalid version` (deploy) / `Artifact not found, check the
version/commit` (update) rather than as a store error. -/
theorem c5_store_failure_handling :
    ∀ (env : S3Env) (bucket version arch e : String),
      (env.readObject bucket "LATEST_TAG" = .error e →
        (S3Service.getLatestTag env bucket).1 =
          .error ("Failed to get latest tag from bucket " ++ bucket)) ∧
      (env.readObject bucket "LATEST_HASH" = .error e →
        (S3Service.getLatestHash env bucket).1 =
          .error ("Failed to get latest hash from bucket " ++ bucket)) ∧
      (env.readObject bucket (version ++ "/" ++ arch ++ "/bootstrap.zip") = .error e →
        (S3Service.hasArtifact env bucket version arch).1 = .ok false ∧
        (version ≠ "" → version ≠ "latest" →
          (deployVersionResolution env bucket version arch).1 = .error "Invalid version" ∧
          (updateVersionResolution env bucket version arch).1 =
            .error "Artifact not found, check the version/commit")) := by
  intro env bucket version arch e
  refine ⟨?_, ?_, ?_⟩
  · intro h; simp [S3Service.getLatestTag, h]
  · intro h; simp [S3Service.getLatestHash, h]
  · intro h
    have hart : (S3Service.hasArtifact env bucket version arch).1 = .ok false := by
      simp [S3Service.hasArtifact, h]
    refine ⟨hart, ?_⟩
    intro h1 h2
    constructor <;>
      simp [deployVersionResolution, updateVersionResolution, if_neg h1, if_neg h2, hart]

theorem c5_witness :
    (S3Service.getLatestTag failingStoreEnv "b").1 =
      .error ("Failed to get latest tag from bucket " ++ "b") ∧
    (S3Service.hasArtifact failingStoreEnv "b" "v1" "arm64").1 = .ok false :=
  ⟨(c5_store_failure_handling failingStoreEnv "b" "v1" "arm64" "AccessDenied").1 rfl,
   ((c5_store_failure_handling failingStoreEnv "b" "v1" "arm64" "AccessDenied").2.2 rfl).1⟩

/-- Insertion-ordered key/value map update with the semantics of the
JavaScript `Map.set`: an existing key keeps its position and gets the new
value, a new key is appended. -/
def mapSet {α : Type} : List (String × α) → String → α → List (String × α)
  | [], key, value => [(key, value)]
  | (k, v) :: rest, key, value =>
    if k = key then (key, value) :: rest else (k, v) :: mapSet rest key value

/-- Key lookup in an insertion-ordered key/value map (`Map.get`). -/
def lookupKV {α : Type} : List (String × α) → String → Option α
  | [], _ => none
  | (k, v) :: rest, key => if k = key then some v else lookupKV rest key

/-- `DeployConfiguration` of the schemas module (zod schema applied: the
defaulted fields are concrete here, the optional ones are options). -/
structure DeployConfiguration where
  stackName : String
  arch : String
  lambdaMemorySize : Nat
  dispatcherMemorySize : Nat
  reducerMemorySize : Nat
  workerMemorySize : Nat
  enablePrivateVpc : Bool
  enablePrivateEndpoint : Bool
  enableLogging : Bool
  clapdbVersion : Option String
  artifactsBucket : Option String
  templateBody : Option String
  updateBuiltinTemplate : Bool
deriving DecidableEq

/-- One entry of a CreateStack/UpdateStack `Parameters` list: the key, an
optional explicit value, and the optional `UsePreviousValue` flag (absent in
the request unless written). -/
structure CFParameter where
  parameterKey : String
  parameterValue : Option String
  usePreviousValue : Option Bool
deriving DecidableEq

/-- JavaScript `String(b)` on a boolean. -/
def boolString (b : Bool) : String := if b then "true" else "false"

/-- The `Parameters` list built by `CloudFormationService.createStack`. -/
def createStackParameters (name : String) (config : DeployConfiguration) :
    List CFParameter :=
  [⟨"StackName", some name, none⟩,
   ⟨"Arch", some config.arch, none⟩,
   ⟨"ArtifactsBucket", config.artifactsBucket, none⟩,
   ⟨"ClapDBVersion", config.clapdbVersion, none⟩,
   ⟨"LambdaMemorySize", some (toString config.lambdaMemorySize), none⟩,
   ⟨"EnablePrivateVPC", some (boolString config.enablePrivateVpc), none⟩,
   ⟨"EnablePrivateEndpoint", some (boolString config.enablePrivateEndpoint), none⟩,
   ⟨"EnableLogging", some (boolString config.enableLogging), none⟩]

/-- The `Parameters` list built by `CloudFormationService.updateStack`. -/
def updateStackParameters (name : String) (config : DeployConfiguration) :
    List CFParameter :=
  [⟨"StackName", some name, none⟩,
   ⟨"Arch", none, some true⟩,
   ⟨"ArtifactsBucket", none, some true⟩,
   ⟨"ClapDBVersion", config.clapdbVersion, none⟩,
   ⟨"EnablePrivateVPC", none, some true⟩,
   ⟨"EnablePrivateEndpoint", none, some true⟩,
   ⟨"LambdaMemorySize", some (toString config.lambdaMemorySize), none⟩,
   ⟨"DispatcherMemorySize", some (toString config.dispatcherMemorySize), none⟩,
   ⟨"ReducerMemorySize", some (toString config.reducerMemorySize), none⟩,
   ⟨"WorkerMemorySize", some (toString config.workerMemorySize), none⟩,
   ⟨"EnableLogging", some (boolString config.enableLogging), none⟩]

/-- The configuration `updateCommand` builds for
`clapctl update -n s -c abc123` with no memory or logging options: memory
sizes default to 3008 and the flags to false before `updateService` runs. -/
def updateCmdDefaultConfig : DeployConfiguration :=
  ⟨"s", "x86_64", 3008, 3008, 3008, 3008, false, false, false, some "abc123",
   some "clapdb-pkgs-us-east-1", none, false⟩

/-- The memoized-outputs state of a `CloudFormationService` instance (its
private `outputs` map). -/
structure CFState where
  outputs : List (String × String)
deriving DecidableEq

/-- `CloudFormationService.getOutputs`: fetches the stack description (one
engine fetch, the `Nat` component), clears the cached map and refills it
from the response, and returns the map.  `remote` is the key/value list the
engine reports at fetch time. -/
def CloudFormationService.getOutputs (remote : List (String × String)) (_st : CFState) :
    List (String × String) × CFState × Nat :=
  let m := remote.foldl (fun acc kv => mapSet acc kv.1 kv.2) []
  (m, ⟨m⟩, 1)

/-- `CloudFormationService.getDataApiUrl`: refreshes the cache only when it
is empty, then reads `ClapDataApiURL` from the cache. -/
def CloudFormationService.getDataApiUrl (remote : List (String × String)) (st : CFState) :
    String × CFState × Nat :=
  if st.outputs.isEmpty then
    let r := CloudFormationService.getOutputs remote st
    ((lookupKV r.1 "ClapDataApiURL").getD "", r.2.1, r.2.2)
  else
    ((lookupKV st.outputs "ClapDataApiURL").getD "", st, 0)

/-- `CloudFormationService.getLicenseApiUrl`: same caching, key
`ClapLicenseApiURL`. -/
def CloudFormationService.getLicenseApiUrl (remote : List (String × String)) (st : CFState) :
    String × CFState × Nat :=
  if st.outputs.isEmpty then
    let r := CloudFormationService.getOutputs remote st
    ((lookupKV r.1 "ClapLicenseApiURL").getD "", r.2.1, r.2.2)
  else
    ((lookupKV st.outputs "ClapLicenseApiURL").getD "", st, 0)

/-- `CloudFormationService.getInitLambdaName`: same caching, key
`ClapDBInitLambda`. -/
def CloudFormationService.getInitLambdaName (remote : List (String × String)) (st : CFState) :
    String × CFState × Nat :=
  if st.outputs.isEmpty then
    let r := CloudFormationService.getOutputs remote st
    ((lookupKV r.1 "ClapDBInitLambda").getD "", r.2.1, r.2.2)
  else
    ((lookupKV st.outputs "ClapDBInitLambda").getD "", st, 0)

/-- A manager state whose cache already holds an output value. -/
def cachedState : CFState := ⟨[("ClapDataApiURL", "https://old.example")]⟩

/-- Engine outputs after a stack update changed the data API URL. -/
def remoteAfterUpdate : List (String × String) := [("ClapDataApiURL", "https://new.example")]

/-- `registerCloudProvider`: stores the factory under the lower-cased name,
replacing any previous registration of the same key. -/
def registerCloudProvider {β : Type} (reg : List (String × (String → β)))
    (name : String) (factory : String → β) : List (String × (String → β)) :=
  mapSet reg name.toLower factory

/-- `getRegisteredProviders`: the registered keys, in insertion order. -/
def getRegisteredProviders {β : Type} (reg : List (String × (String → β))) : List String :=
  reg.map Prod.fst

/-- `createCloudProvider`: looks the factory up under the lower-cased name
and applies it to the profile; on a miss it throws an error enumerating the
registered names comma-joined, or the literal `none` when that enumeration
is the empty string. -/
def createCloudProvider {β : Type} (reg : List (String × (String → β)))
    (name profile : String) : Except String β :=
  match lookupKV reg name.toLower with
  | some factory => .ok (factory profile)
  | none =>
    .error ("Unknown cloud provider: " ++ name ++ ". Available: " ++
      (if String.intercalate ", " (reg.map Prod.fst) = "" then "none"
       else String.intercalate ", " (reg.map Prod.fst)))

lemma stringAppendEmpty (s : String) : s ++ "" = s := by
  apply String.ext
  simp [String.data_append]

lemma lookupKV_mapSet {α : Type} (reg : List (String × α)) (k : String) (v : α) :
    lookupKV (mapSet reg k v) k = some v := by
  induction reg with
  | nil => simp [mapSet, lookupKV]
  | cons hd tl ih =>
    obtain ⟨k0, v0⟩ := hd
    by_cases h : k0 = k <;> simp [mapSet, lookupKV, h, ih]

lemma mapSet_mapSet_keys {α : Type} (reg : List (String × α)) (k : String) (v w : α) :
    (mapSet (mapSet reg k v) k w).map Prod.fst = (mapSet reg k v).map Prod.fst := by
  induction reg with
  | nil => simp [mapSet]
  | cons hd tl ih =>
    obtain ⟨k0, v0⟩ := hd
    by_cases h : k0 = k <;> simp [mapSet, h, ih]

/-- Claim C6 (counterexample): for the configuration `updateCommand` builds
when the memory-size and logging options are not supplied (defaults 3008 and
false), the update request submits `LambdaMemorySize` with the explicit
value `3008` and `EnableLogging` with `false` — not the use-previous-value
sentinel — refuting the claim that every field absent from the supplied
config is submitted as a use-previous sentinel. -/
theorem c6_counterexample :
    ((updateStackParameters "s" updateCmdDefaultConfig).filter
        (fun p => p.parameterKey == "LambdaMemorySize")).map
      (fun p => (p.parameterValue, p.usePreviousValue)) = [(some "3008", none)] ∧
    ((updateStackParameters "s" updateCmdDefaultConfig).filter
        (fun p => p.parameterKey == "EnableLogging")).map
      (fun p => (p.parameterValue, p.usePreviousValue)) = [(some "false", none)] :=
  ⟨rfl, rfl⟩

/-- Claim C6 (amended): the update request submits the use-previous-value
sentinel for exactly the four parameters Arch, ArtifactsBucket,
EnablePrivateVPC and EnablePrivateEndpoint; in particular an update with
`enablePrivateVpc` unspecified submits the sentinel for that parameter and
never an explicit value (so never `false`).  The memory sizes and the
logging flag are always submitted as explicit values from the (defaulted)
config, so a partial update resets those settings to their CLI defaults. -/
theorem c6_use_previous_sentinels :
    ∀ (name : String) (config : DeployConfiguration),
      ((updateStackParameters name config).filter
          (fun p => p.usePreviousValue == some true)).map CFParameter.parameterKey =
        ["Arch", "ArtifactsBucket", "EnablePrivateVPC", "EnablePrivateEndpoint"] ∧
      CFParameter.mk "EnablePrivateVPC" none (some true) ∈
        updateStackParameters name config ∧
      (∀ v : Option String,
        CFParameter.mk "EnablePrivateVPC" v none ∉ updateStackParameters name config) ∧
      CFParameter.mk "LambdaMemorySize" (some (toString config.lambdaMemorySize)) none ∈
        updateStackParameters name config ∧
      CFParameter.mk "EnableLogging" (some (boolString config.enableLogging)) none ∈
        updateStackParameters name config := by
  intro name config
  refine ⟨rfl, ?_, ?_, ?_, ?_⟩
  · simp [updateStackParameters]
  · intro v
    simp [updateStackParameters]
  · simp [updateStackParameters]
  · simp [updateStackParameters]

theorem c6_witness :
    CFParameter.mk "EnablePrivateVPC" none (some true) ∈
      updateStackParameters "s" updateCmdDefaultConfig ∧
    CFParameter.mk "EnablePrivateVPC" (some "false") none ∉
      updateStackParameters "s" updateCmdDefaultConfig :=
  ⟨(c6_use_previous_sentinels "s" updateCmdDefaultConfig).2.1,
   (c6_use_previous_sentinels "s" updateCmdDefaultConfig).2.2.1 (some "false")⟩

/-- Claim C7: registration stores the factory under the lower-cased name;
re-registration of the same name silently replaces the factory while leaving
the key set unchanged (last-writer-wins); creating an unregistered name
fails with an error message that contains the comma-joined list of every
registered name, and reads `Available: none` when the registry is empty. -/
theorem c7_registry :
    ∀ (β : Type) (reg : List (String × (String → β))) (name profile : String)
      (f g : String → β),
      lookupKV (registerCloudProvider reg name f) name.toLower = some f ∧
      lookupKV (registerCloudProvider (registerCloudProvider reg name f) name g)
        name.toLower = some g ∧
      (registerCloudProvider (registerCloudProvider reg name f) name g).map Prod.fst =
        (registerCloudProvider reg name f).map Prod.fst ∧
      (lookupKV reg name.toLower = none →
        ∃ msg, createCloudProvider reg name profile = .error msg ∧
          (∃ pre post,
            msg = pre ++ String.intercalate ", " (reg.map Prod.fst) ++ post) ∧
          (reg = [] →
            msg = "Unknown cloud provider: " ++ name ++ ". Available: " ++ "none")) := by
  intro β reg name profile f g
  refine ⟨lookupKV_mapSet reg name.toLower f,
    lookupKV_mapSet (mapSet reg name.toLower f) name.toLower g,
    mapSet_mapSet_keys reg name.toLower f g, ?_⟩
  intro h
  unfold createCloudProvider
  rw [h]
  by_cases ha : String.intercalate ", " (reg.map Prod.fst) = ""
  · refine ⟨_, rfl, ?_, ?_⟩
    · refine ⟨"Unknown cloud provider: " ++ name ++ ". Available: " ++
        (if String.intercalate ", " (reg.map Prod.fst) = "" then "none"
         else String.intercalate ", " (reg.map Prod.fst)), "", ?_⟩
      rw [ha, stringAppendEmpty, stringAppendEmpty]
    · intro hreg
      simp [ha]
  · refine ⟨_, rfl, ?_, ?_⟩
    · refine ⟨"Unknown cloud provider: " ++ name ++ ". Available: ", "", ?_⟩
      rw [stringAppendEmpty]
      simp [ha]
    · intro hreg
      subst hreg
      exact absurd rfl ha

theorem c7_witness :
    lookupKV (registerCloudProvider ([] : List (String × (String → Nat))) "AWS"
      (fun _ => 7)) ("AWS".toLower) = some (fun _ => 7) ∧
    createCloudProvider ([] : List (String × (String → Nat))) "azure" "default" =
      .error "Unknown cloud provider: azure. Available: none" := by
  constructor
  · exact (c7_registry Nat [] "AWS" "default" (fun _ => 7) (fun _ => 7)).1
  · obtain ⟨msg, hmsg, _, hnone⟩ :=
      (c7_registry Nat [] "azure" "default" (fun _ => 7) (fun _ => 7)).2.2.2 rfl
    rw [hmsg, hnone rfl]
    rfl

/-- Claim C8: on a single manager instance, each endpoint getter (data API
URL, license API URL, init-lambda name) performs no engine fetch and returns
the cached value with the state unchanged whenever the cached outputs map is
non-empty (whatever the engine would currently report), and performs exactly
one fetch when the cache is empty — so outputs observed after a stack update
remain the memoized ones until the cache is emptied. -/
theorem c8_outputs_memoized :
    ∀ (remote : List (String × String)) (st : CFState),
      (st.outputs ≠ [] →
        CloudFormationService.getDataApiUrl remote st =
          ((lookupKV st.outputs "ClapDataApiURL").getD "", st, 0) ∧
        CloudFormationService.getLicenseApiUrl remote st =
          ((lookupKV st.outputs "ClapLicenseApiURL").getD "", st, 0) ∧
        CloudFormationService.getInitLambdaName remote st =
          ((lookupKV st.outputs "ClapDBInitLambda").getD "", st, 0)) ∧
      (st.outputs = [] →
        (CloudFormationService.getDataApiUrl remote st).2.2 = 1 ∧
        (CloudFormationService.getLicenseApiUrl remote st).2.2 = 1 ∧
        (CloudFormationService.getInitLambdaName remote st).2.2 = 1) := by
  intro remote st
  constructor
  · intro h
    have hne : st.outputs.isEmpty = false := by
      cases hst : st.outputs with
      | nil => exact absurd hst h
      | cons a l => simp [hst]
    refine ⟨?_, ?_, ?_⟩ <;>
      simp [CloudFormationService.getDataApiUrl, CloudFormationService.getLicenseApiUrl,
        CloudFormationService.getInitLambdaName, hne]
  · intro h
    refine ⟨?_, ?_, ?_⟩ <;>
      simp [CloudFormationService.getDataApiUrl, CloudFormationService.getLicenseApiUrl,
        CloudFormationService.getInitLambdaName, h, CloudFormationService.getOutputs]

theorem c8_witness :
    CloudFormationService.getDataApiUrl remoteAfterUpdate cachedState =
      ("https://old.example", cachedState, 0) :=
  ((c8_outputs_memoized remoteAfterUpdate cachedState).1 (by decide)).1

/-- Claim C10: for every deployment configuration, the create request
parameter list carries a `LambdaMemorySize` entry but no
`DispatcherMemorySize`, `ReducerMemorySize` or `WorkerMemorySize` entries;
those three per-role memory sizes never influence the create request (two
configs differing only in them yield identical create parameter lists) and
are submitted only by the update request. -/
theorem c10_create_memory_params :
    ∀ (name : String) (config : DeployConfiguration),
      (createStackParameters name config).map CFParameter.parameterKey =
        ["StackName", "Arch", "ArtifactsBucket", "ClapDBVersion", "LambdaMemorySize",
         "EnablePrivateVPC", "EnablePrivateEndpoint", "EnableLogging"] ∧
      "LambdaMemorySize" ∈ (createStackParameters name config).map CFParameter.parameterKey ∧
      "DispatcherMemorySize" ∉
        (createStackParameters name config).map CFParameter.parameterKey ∧
      "ReducerMemorySize" ∉
        (createStackParameters name config).map CFParameter.parameterKey ∧
      "WorkerMemorySize" ∉
        (createStackParameters name config).map CFParameter.parameterKey ∧
      "DispatcherMemorySize" ∈
        (updateStackParameters name config).map CFParameter.parameterKey ∧
      "ReducerMemorySize" ∈
        (updateStackParameters name config).map CFParameter.parameterKey ∧
      "WorkerMemorySize" ∈
        (updateStackParameters name config).map CFParameter.parameterKey ∧
      ∀ (sn a : String) (lm d1 r1 w1 d2 r2 w2 : Nat) (pv pe lg : Bool)
        (v ab tb : Option String) (ub : Bool),
        createStackParameters name ⟨sn, a, lm, d1, r1, w1, pv, pe, lg, v, ab, tb, ub⟩ =
          createStackParameters name ⟨sn, a, lm, d2, r2, w2, pv, pe, lg, v, ab, tb, ub⟩ := by
  intro name config
  refine ⟨rfl, ?_, ?_, ?_, ?_, ?_, ?_, ?_, ?_⟩
  · simp [createStackParameters]
  · simp [createStackParameters]
  · simp [createStackParameters]
  · simp [createStackParameters]
  · simp [updateStackParameters]
  · simp [updateStackParameters]
  · simp [updateStackParameters]
  · intro sn a lm d1 r1 w1 d2 r2 w2 pv pe lg v ab tb ub
    rfl

theorem c10_witness :
    "LambdaMemorySize" ∈
      (createStackParameters "s" updateCmdDefaultConfig).map CFParameter.parameterKey ∧
    "DispatcherMemorySize" ∉
      (createStackParameters "s" updateCmdDefaultConfig).map CFParameter.parameterKey :=
  ⟨(c10_create_memory_params "s" updateCmdDefaultConfig).2.1,
   (c10_create_memory_params "s" updateCmdDefaultConfig).2.2.1⟩

end Clapctl
